import Mathlib

/-
Verification of the PermastoreIt-Testnet client (permastoreit_sdk.py and
permastoreit_cli.py) against its natural-language specification.

The SDK and CLI are shallowly embedded: Python strings are lists of
characters, HTTP responses are explicit records, local-filesystem effects
are booleans saying whether the corresponding OS call succeeds, and
Python exceptions become constructors of an explicit error type carried
in `Except`.
-/

namespace PermastoreIt

/-- Python strings, modelled as lists of characters. -/
abbrev PyStr := List Char

/-- Python `s.lstrip(c)` for a single strip character `c`. -/
def pyLStrip (sep : Char) (s : PyStr) : PyStr :=
  s.dropWhile (fun c => c == sep)

/-- Python `s.rstrip(c)` for a single strip character `c`. -/
def pyRStrip (sep : Char) (s : PyStr) : PyStr :=
  (s.reverse.dropWhile (fun c => c == sep)).reverse

/-- Python `s.split(c)` for a one-character separator: the empty string
splits to `[""]`, and every occurrence of the separator starts a new
(possibly empty) part. -/
def pySplit (sep : Char) : PyStr → List PyStr
  | [] => [[]]
  | c :: rest =>
    if c = sep then [] :: pySplit sep rest
    else
      match pySplit sep rest with
      | [] => [[c]]
      | h :: t => (c :: h) :: t

/-- Python `s.lower()` restricted to per-character lowering. -/
def pyLower (s : PyStr) : PyStr := s.map Char.toLower

/-- Python `needle in hay` substring containment. -/
def pyContains (needle : PyStr) : PyStr → Bool
  | [] => needle.isEmpty
  | c :: rest => needle.isPrefixOf (c :: rest) || pyContains needle rest

/-- Python `a or b` for an optional string `a`: `None` and the empty
string are falsy and select `b`. -/
def pyOrElse (a : Option PyStr) (b : PyStr) : PyStr :=
  match a with
  | some s => if s = [] then b else s
  | none => b

/-- A decoded JSON object, restricted to the string-valued fields the
client actually reads (`detail`, `status`); list-shaped bodies are
modelled opaquely by an object the client never reads a field from. -/
structure JsonObj where
  fields : List (PyStr × PyStr)
deriving DecidableEq

/-- Python `data.get(key)` on a decoded JSON object. -/
def JsonObj.get (o : JsonObj) (k : PyStr) : Option PyStr :=
  (o.fields.find? (fun kv => kv.fst == k)).map (fun kv => kv.snd)

/-- One HTTP response as the client sees it: the status code, the decoded
JSON body (`none` when `response.json()` would raise), and the raw body
text. -/
structure HttpResponse where
  status : Nat
  jsonBody : Option JsonObj
  rawText : PyStr
deriving DecidableEq

/-- The exceptions the SDK and the Python runtime can raise out of the
embedded code paths. `nameError` models Python's NameError (an undefined
global), `valueError` models ValueError, `jsonDecodeError` models a
`response.json()` decode failure on a success response, and
`permastoreItError` is the SDK's base class used for local I/O failures. -/
inductive SdkError
  | networkError (msg : PyStr)
  | apiError (status : Nat) (detail : PyStr)
  | fileNotFoundOnServer (resourceId : PyStr)
  | zkpDisabled
  | localFileNotFound (msg : PyStr)
  | permastoreItError (msg : PyStr)
  | valueError (msg : PyStr)
  | nameError (missing : PyStr)
  | jsonDecodeError
deriving DecidableEq

/-- Python `str(e)` for the embedded exceptions, as built by the
constructors in the source: `APIError.__init__` formats its message as
`API Error {status_code}: {detail}`, `FileNotFoundErrorOnServer` and
`ZKPDisabledError` pass their fixed detail strings to it, the wrapper
exceptions carry the message they were raised with, Python renders a
NameError as `name '...' is not defined`, and a JSON decode failure on
an empty body carries the json module's standard message. -/
def errorStr : SdkError → PyStr
  | .networkError msg => msg
  | .apiError status detail =>
    "API Error ".toList ++ (Nat.repr status).toList ++ ": ".toList ++ detail
  | .fileNotFoundOnServer resourceId =>
    "API Error 404: Resource '".toList ++ resourceId ++ "' not found on server.".toList
  | .zkpDisabled => "API Error 501: ZKP is not enabled on the target node.".toList
  | .localFileNotFound msg => msg
  | .permastoreItError msg => msg
  | .valueError msg => msg
  | .nameError missing => "name '".toList ++ missing ++ "' is not defined".toList
  | .jsonDecodeError => "Expecting value: line 1 column 1 (char 0)".toList

/-- `f"No detail provided (Status: {status_code})"`. -/
def noDetailMsg (status : Nat) : PyStr :=
  "No detail provided (Status: ".toList ++ (Nat.repr status).toList ++ ")".toList

/-- `f"Server returned status {status_code}"`, the default detail used by
the `APIError` constructor when it is given a falsy detail. -/
def serverStatusDetail (status : Nat) : PyStr :=
  "Server returned status ".toList ++ (Nat.repr status).toList

/-- The detail extraction of `_make_request` for a non-ok response:
`data.get("detail")` when the body decodes as JSON, otherwise the first
200 characters of the raw text, or a fallback message when the raw text
is empty. -/
def extractDetail (resp : HttpResponse) : Option PyStr :=
  match resp.jsonBody with
  | some data => JsonObj.get data "detail".toList
  | none =>
    some (if resp.rawText ≠ [] then resp.rawText.take 200 else noDetailMsg resp.status)

/-- `requests.Response.ok`: true unless the status code is in [400, 600),
mirroring `raise_for_status`. -/
def responseOk (status : Nat) : Bool :=
  !(decide (400 ≤ status) && decide (status < 600))

/-- The error classification of `_make_request` for a non-ok response:
a 404 on an endpoint of the shape `prefix/segment` with prefix among
`download`, `file-info`, `zk-proof` becomes `FileNotFoundErrorOnServer`
carrying the segment; any other 404 becomes a generic `APIError`; a 501
on an endpoint whose lowered text contains `"zkp"` becomes
`ZKPDisabledError`; everything else becomes a generic `APIError`. -/
def classifyFailure (endpoint : PyStr) (resp : HttpResponse) : SdkError :=
  if resp.status = 404 then
    match pySplit '/' (pyLStrip '/' endpoint) with
    | [p0, p1] =>
      if p0 = "download".toList ∨ p0 = "file-info".toList ∨ p0 = "zk-proof".toList then
        .fileNotFoundOnServer p1
      else
        .apiError resp.status (pyOrElse (extractDetail resp) "Resource not found".toList)
    | _ => .apiError resp.status (pyOrElse (extractDetail resp) "Resource not found".toList)
  else if resp.status = 501 ∧ pyContains "zkp".toList (pyLower endpoint) = true then
    .zkpDisabled
  else
    .apiError resp.status (pyOrElse (extractDetail resp) (serverStatusDetail resp.status))

/-- `PermastoreItClient._make_request`, given the response the transport
produced for the request: a 2xx/3xx response is returned unchanged, a
non-ok response is converted to exactly one typed error. (Transport-level
exceptions, which the source maps to `NetworkError`, are outside this
response-driven model.) -/
def makeRequest (endpoint : PyStr) (resp : HttpResponse) : Except SdkError HttpResponse :=
  if responseOk resp.status then .ok resp
  else .error (classifyFailure endpoint resp)

/-- `response.json()` on a success response: a decode failure raises. -/
def respJson (resp : HttpResponse) : Except SdkError JsonObj :=
  match resp.jsonBody with
  | some data => .ok data
  | none => .error .jsonDecodeError

/-- The URL construction of `__init__` plus `_make_request`:
`base_url.rstrip('/') + '/' + endpoint.lstrip('/')`. -/
def requestUrl (base_url endpoint : PyStr) : PyStr :=
  pyRStrip '/' base_url ++ '/' :: pyLStrip '/' endpoint

namespace SDK

/-- The shared `self._make_request(...); return response.json()` pattern
of the SDK's read operations. -/
def requestJson (endpoint : PyStr) (resp : HttpResponse) : Except SdkError JsonObj :=
  match makeRequest endpoint resp with
  | .error e => .error e
  | .ok r => respJson r

/-- `get_health`: a GET on `/health`, returning the decoded body of any
ok response unchanged (the body's own `status` field is not inspected). -/
def get_health (resp : HttpResponse) : Except SdkError JsonObj :=
  requestJson "/health".toList resp

/-- `get_zk_proof`: a GET on `/zk-proof/{file_hash}`. -/
def get_zk_proof (file_hash : PyStr) (resp : HttpResponse) : Except SdkError JsonObj :=
  requestJson ("/zk-proof/".toList ++ file_hash) resp

/-- The request an upload issues: the multipart part's filename and
content type, and the per-call timeout override. -/
structure UploadRequest where
  fileName : PyStr
  contentType : PyStr
  timeout : Int
deriving DecidableEq

/-- The part of `upload` that runs before the HTTP request: the
`os.path.isfile` check, the MIME-type resolution, and the request
construction with `upload_timeout = max(self.timeout * 2, 120)`.
`guessed_type` is the first component of `mimetypes.guess_type`.
When the guess is `None`, the source sets the content type to
`application/octet-stream` and then executes
`print(..., file=sys.stderr)`; the module never imports `sys`, so that
line raises `NameError` and the upload never reaches the request. -/
def uploadPrepare (timeout : Int) (isfile : Bool) (file_name : PyStr)
    (guessed_type : Option PyStr) : Except SdkError UploadRequest :=
  if !isfile then
    .error (.localFileNotFound ("Local file not found or is not a regular file: ".toList ++ file_name))
  else
    match guessed_type with
    | some ct => .ok ⟨file_name, ct, max (timeout * 2) 120⟩
    | none => .error (.nameError "sys".toList)

/-- `upload`: prepare the request, POST to `/upload`, decode the body. -/
def upload (timeout : Int) (isfile : Bool) (file_name : PyStr)
    (guessed_type : Option PyStr) (resp : HttpResponse) : Except SdkError JsonObj :=
  match uploadPrepare timeout isfile file_name guessed_type with
  | .error e => .error e
  | .ok _ => requestJson "/upload".toList resp

/-- `os.path.join(a, b)` restricted to the cases the client produces:
an absolute second argument wins, otherwise the parts are joined with a
single separator. -/
def pyPathJoin (a b : PyStr) : PyStr :=
  match b with
  | '/' :: _ => b
  | _ =>
    match a.getLast? with
    | none => b
    | some c => if c = '/' then a ++ b else a ++ '/' :: b

/-- `download`: default the save name to the hash when the given name is
falsy, create the directory (`mkdirOk` says whether `os.makedirs`
succeeds), GET `/download/{file_hash}`, then stream the body to disk
(`writeOk` says whether the writes succeed; on a write failure the
partial file is removed and the `except IOError` clause raises the SDK
base error). The whole request/write block sits in a `try` whose final
`except Exception` clause catches every other exception — including
`FileNotFoundErrorOnServer`, `APIError` and `NetworkError` raised by
`_make_request`, none of which is an `IOError` — and re-raises it as the
generic SDK base error with the `Unexpected error during download/save`
message, despite the comment above the clauses saying those errors
propagate. -/
def download (file_hash save_dir : PyStr) (save_filename : Option PyStr)
    (mkdirOk writeOk : Bool) (resp : HttpResponse) : Except SdkError PyStr :=
  let name :=
    match save_filename with
    | none => file_hash
    | some n => if n = [] then file_hash else n
  if !mkdirOk then
    .error (.permastoreItError ("Failed to create save directory ".toList ++ save_dir))
  else
    let full_save_path := pyPathJoin save_dir name
    match makeRequest ("/download/".toList ++ file_hash) resp with
    | .error e =>
      .error (.permastoreItError
        ("Unexpected error during download/save: ".toList ++ errorStr e))
    | .ok _ =>
      if writeOk then .ok full_save_path
      else .error (.permastoreItError ("Failed to write downloaded file to ".toList ++ full_save_path))

/-- The ValueError message of the limit checks in `list_files` and
`search`. -/
def limitMsg : PyStr := "Limit must be a positive integer.".toList

/-- `list_files`: an integer limit below 1 raises ValueError before any
request; otherwise a GET on `/files`. -/
def list_files (limit : Option Int) (resp : HttpResponse) : Except SdkError JsonObj :=
  match limit with
  | some l =>
    if l < 1 then .error (.valueError limitMsg)
    else requestJson "/files".toList resp
  | none => requestJson "/files".toList resp

/-- `search`: an integer limit below 1 raises ValueError before any
request; otherwise a GET on `/search`. `query` is passed through as a
request parameter and does not affect the client-side control flow. -/
def search (query : PyStr) (limit : Int) (resp : HttpResponse) : Except SdkError JsonObj :=
  if limit < 1 then .error (.valueError limitMsg)
  else requestJson "/search".toList resp

end SDK

namespace CLI

/-- The `health` command: any exception from `get_health` is rendered and
the process exits 1; on success the exit code is 0 when the body's
`status` field equals `"healthy"` and 2 otherwise. -/
def health (resp : HttpResponse) : Nat :=
  match SDK.get_health resp with
  | .error _ => 1
  | .ok result =>
    if JsonObj.get result "status".toList = some "healthy".toList then 0 else 2

/-- One iteration of the repeat loop shared by the `upload` and
`download` commands: a success appends a success record; a failure with
repeat count 1 exits the process with code 1 (`handle_sdk_error` with
`exit_on_error=True`), and with a larger repeat count appends a failure
record and clears `overall_success`. The state is either the exit code
of an already-terminated process or the record list with the
`overall_success` flag. -/
def repeatStep (repeatCount : Nat) (st : Except Nat (List Bool × Bool))
    (attemptOk : Bool) : Except Nat (List Bool × Bool) :=
  match st with
  | .error c => .error c
  | .ok (recs, overall) =>
    if attemptOk then .ok (recs ++ [true], overall)
    else if repeatCount = 1 then .error 1
    else .ok (recs ++ [false], false)

/-- The repeat loop of the `upload` and `download` commands over attempt
indices `0, ..., repeatCount - 1`, where `ok i` says whether attempt `i`
succeeds. -/
def repeatRun (repeatCount : Nat) (ok : Nat → Bool) : Except Nat (List Bool × Bool) :=
  (List.range repeatCount).foldl (fun st i => repeatStep repeatCount st (ok i)) (.ok ([], true))

/-- The whole repeatable command: run the loop, then exit 1 when any
attempt failed and the repeat count is above 1, else exit 0. The result
is either the mid-loop exit code or the per-attempt records paired with
the final exit code. -/
def repeatCommand (repeatCount : Nat) (ok : Nat → Bool) : Except Nat (List Bool × Nat) :=
  match repeatRun repeatCount ok with
  | .error c => .error c
  | .ok (recs, overall) =>
    .ok (recs, if overall = false ∧ 1 < repeatCount then 1 else 0)

/-- The `upload` command's repeat/exit behaviour. -/
def upload (repeatCount : Nat) (ok : Nat → Bool) : Except Nat (List Bool × Nat) :=
  repeatCommand repeatCount ok

/-- The `download` command's repeat/exit behaviour (identical loop
structure to `upload`). -/
def download (repeatCount : Nat) (ok : Nat → Bool) : Except Nat (List Bool × Nat) :=
  repeatCommand repeatCount ok

/-- The `upload-bulk` command: an empty file set returns early with no
summary; otherwise every file is attempted in order, each attempt
appends one record and bumps the success or failure counter, and the
summary `(records, success_count, fail_count)` is reported. -/
def upload_bulk (files : List PyStr) (ok : PyStr → Bool) :
    Option (List (PyStr × Bool) × Nat × Nat) :=
  if files.isEmpty then none
  else
    some (files.foldl
      (fun acc f =>
        if ok f then (acc.1 ++ [(f, true)], acc.2.1 + 1, acc.2.2)
        else (acc.1 ++ [(f, false)], acc.2.1, acc.2.2 + 1))
      ([], 0, 0))

end CLI

/-! ### Helper lemmas about the Python string primitives -/

/-- Joining with a separator, the inverse of `pySplit`. -/
def pyJoin (sep : Char) : List PyStr → PyStr
  | [] => []
  | [p] => p
  | p :: q :: rest => p ++ sep :: pyJoin sep (q :: rest)

theorem pySplit_ne_nil (sep : Char) (s : PyStr) : pySplit sep s ≠ [] := by
  cases s with
  | nil => simp [pySplit]
  | cons c rest =>
    simp only [pySplit]
    split
    · simp
    · split <;> simp

theorem pyJoin_pySplit (sep : Char) (s : PyStr) : pyJoin sep (pySplit sep s) = s := by
  induction s with
  | nil => rfl
  | cons c rest ih =>
    simp only [pySplit]
    split
    · rename_i hc
      cases hr : pySplit sep rest with
      | nil => exact absurd hr (pySplit_ne_nil sep rest)
      | cons h t =>
        rw [hr] at ih
        subst hc
        simp [pyJoin, ih]
    · rename_i hc
      cases hr : pySplit sep rest with
      | nil => exact absurd hr (pySplit_ne_nil sep rest)
      | cons h t =>
        rw [hr] at ih
        cases t with
        | nil =>
          simp only [pyJoin] at ih ⊢
          rw [ih]
        | cons q t' =>
          simp only [pyJoin, List.cons_append] at ih ⊢
          rw [ih]

theorem pySplit_parts_no_sep (sep : Char) (s : PyStr) :
    ∀ p ∈ pySplit sep s, sep ∉ p := by
  induction s with
  | nil =>
    intro p hp
    simp [pySplit] at hp
    subst hp
    simp
  | cons c rest ih =>
    intro p hp
    simp only [pySplit] at hp
    split at hp
    · rcases List.mem_cons.mp hp with h | h
      · subst h; simp
      · exact ih p h
    · rename_i hc
      cases hr : pySplit sep rest with
      | nil => exact absurd hr (pySplit_ne_nil sep rest)
      | cons h t =>
        rw [hr] at hp
        rcases List.mem_cons.mp hp with h2 | h2
        · subst h2
          intro hmem
          rcases List.mem_cons.mp hmem with h3 | h3
          · exact hc h3.symm
          · exact ih h (by rw [hr]; exact List.mem_cons_self h t) h3
        · exact ih p (by rw [hr]; exact List.mem_cons_of_mem h h2)

/-- Inversion: a two-part split comes from exactly one separator between
two separator-free parts. -/
theorem pySplit_eq_pair (sep : Char) (s a b : PyStr)
    (h : pySplit sep s = [a, b]) : s = a ++ sep :: b ∧ sep ∉ a ∧ sep ∉ b := by
  refine ⟨?_, ?_, ?_⟩
  · have hj := pyJoin_pySplit sep s
    rw [h] at hj
    simpa [pyJoin] using hj.symm
  · exact pySplit_parts_no_sep sep s a (by rw [h]; simp)
  · exact pySplit_parts_no_sep sep s b (by rw [h]; simp)

theorem pySplit_append_sep (sep : Char) (a b : PyStr) (h : sep ∉ a) :
    pySplit sep (a ++ sep :: b) = a :: pySplit sep b := by
  induction a with
  | nil => simp [pySplit]
  | cons c a' ih =>
    have hc : ¬ c = sep := by
      intro hcc
      exact h (by rw [← hcc]; exact List.mem_cons_self c a')
    have ha' : sep ∉ a' := fun hm => h (List.mem_cons_of_mem c hm)
    simp only [List.cons_append, pySplit, if_neg hc]
    rw [show a'.append (sep :: b) = a' ++ sep :: b from rfl, ih ha']

theorem pySplit_of_no_sep (sep : Char) (b : PyStr) (h : sep ∉ b) :
    pySplit sep b = [b] := by
  induction b with
  | nil => rfl
  | cons c b' ih =>
    have hc : ¬ c = sep := by
      intro hcc
      exact h (by rw [← hcc]; exact List.mem_cons_self c b')
    have hb' : sep ∉ b' := fun hm => h (List.mem_cons_of_mem c hm)
    simp only [pySplit, if_neg hc, ih hb']

theorem pyLStrip_cons_sep (sep : Char) (l : PyStr) :
    pyLStrip sep (sep :: l) = pyLStrip sep l := by
  simp [pyLStrip, List.dropWhile_cons]

theorem pyLStrip_cons_ne (sep c : Char) (h : ¬ c = sep) (l : PyStr) :
    pyLStrip sep (c :: l) = c :: l := by
  simp only [pyLStrip, List.dropWhile_cons]
  rw [if_neg (by simpa using h)]

theorem pyLStrip_replicate_append (sep : Char) (m : Nat) (e : PyStr) :
    pyLStrip sep (List.replicate m sep ++ e) = pyLStrip sep e := by
  unfold pyLStrip
  rw [List.dropWhile_append_of_pos]
  intro a ha
  rw [List.eq_of_mem_replicate ha]
  simp

theorem pyRStrip_append_replicate (sep : Char) (b : PyStr) (k : Nat) :
    pyRStrip sep (b ++ List.replicate k sep) = pyRStrip sep b := by
  unfold pyRStrip
  rw [List.reverse_append, List.reverse_replicate, List.dropWhile_append_of_pos]
  intro a ha
  rw [List.eq_of_mem_replicate ha]
  simp

/-- `classifyFailure` never produces a ValueError: limit validation is
the only source of ValueError and it happens before any request. -/
theorem classifyFailure_ne_valueError (endpoint : PyStr) (resp : HttpResponse) (m : PyStr) :
    classifyFailure endpoint resp ≠ .valueError m := by
  unfold classifyFailure
  split
  · split
    · split <;> simp
    · simp
  · split <;> simp

/-! ### Characterization of the response interpretation -/

theorem makeRequest_of_not_ok (endpoint : PyStr) (resp : HttpResponse)
    (h : responseOk resp.status = false) :
    makeRequest endpoint resp = .error (classifyFailure endpoint resp) := by
  unfold makeRequest
  rw [h]
  simp

theorem makeRequest_of_ok (endpoint : PyStr) (resp : HttpResponse)
    (h : responseOk resp.status = true) :
    makeRequest endpoint resp = .ok resp := by
  unfold makeRequest
  rw [h]
  simp

/-- A 404 on an endpoint of the shape `prefix/segment` with a resource
prefix yields `FileNotFoundErrorOnServer` carrying the segment. -/
theorem makeRequest_404_resource (endpoint : PyStr) (resp : HttpResponse)
    (h404 : resp.status = 404) (p seg : PyStr)
    (hp : p = "download".toList ∨ p = "file-info".toList ∨ p = "zk-proof".toList)
    (hseg : '/' ∉ seg) (hdec : pyLStrip '/' endpoint = p ++ '/' :: seg) :
    makeRequest endpoint resp = .error (.fileNotFoundOnServer seg) := by
  have hpn : '/' ∉ p := by rcases hp with h | h | h <;> subst h <;> decide
  have hsplit : pySplit '/' (pyLStrip '/' endpoint) = [p, seg] := by
    rw [hdec, pySplit_append_sep '/' p seg hpn, pySplit_of_no_sep '/' seg hseg]
  rw [makeRequest_of_not_ok endpoint resp (by rw [h404]; rfl)]
  unfold classifyFailure
  rw [h404]
  rw [if_pos rfl]
  simp only [hsplit]
  rw [if_pos hp]

/-- A 404 on an endpoint of any other shape yields a generic `APIError`. -/
theorem makeRequest_404_generic (endpoint : PyStr) (resp : HttpResponse)
    (h404 : resp.status = 404)
    (hno : ¬ ∃ p seg, (p = "download".toList ∨ p = "file-info".toList ∨ p = "zk-proof".toList)
        ∧ '/' ∉ seg ∧ pyLStrip '/' endpoint = p ++ '/' :: seg) :
    makeRequest endpoint resp
      = .error (.apiError 404 (pyOrElse (extractDetail resp) "Resource not found".toList)) := by
  rw [makeRequest_of_not_ok endpoint resp (by rw [h404]; rfl)]
  unfold classifyFailure
  rw [h404, if_pos rfl]
  cases hsp : pySplit '/' (pyLStrip '/' endpoint) with
  | nil => exact absurd hsp (pySplit_ne_nil _ _)
  | cons p0 t =>
    cases t with
    | nil => simp only [hsp]
    | cons p1 t2 =>
      cases t2 with
      | nil =>
        have hcond : ¬ (p0 = "download".toList ∨ p0 = "file-info".toList ∨ p0 = "zk-proof".toList) := by
          intro hc
          obtain ⟨hs, _, hnb⟩ := pySplit_eq_pair '/' (pyLStrip '/' endpoint) p0 p1 hsp
          exact hno ⟨p0, p1, hc, hnb, hs⟩
        simp only [hsp]
        rw [if_neg hcond]
      | cons p2 t3 => simp only [hsp]

/-- The read operations never produce a ValueError out of the response
path: ValueError only arises from the client-side limit validation. -/
theorem requestJson_ne_valueError (endpoint : PyStr) (resp : HttpResponse) (m : PyStr) :
    SDK.requestJson endpoint resp ≠ .error (.valueError m) := by
  unfold SDK.requestJson
  cases hok : responseOk resp.status with
  | true =>
    simp only [makeRequest_of_ok endpoint resp hok]
    unfold respJson
    cases resp.jsonBody <;> simp
  | false =>
    simp only [makeRequest_of_not_ok endpoint resp hok]
    intro h
    injection h with h2
    exact classifyFailure_ne_valueError endpoint resp m h2

/-! ### Lemmas about the command-layer loops -/

/-- With a repeat count other than 1 the loop never terminates the
process early: it appends one record per attempt and conjoins the
success flags. -/
theorem repeatRun_foldl (rc : Nat) (hrc : rc ≠ 1) (ok : Nat → Bool) (l : List Nat) :
    ∀ (recs : List Bool) (overall : Bool),
      l.foldl (fun st i => CLI.repeatStep rc st (ok i)) (.ok (recs, overall))
        = .ok (recs ++ l.map ok, overall && l.all ok) := by
  induction l with
  | nil => intro recs overall; simp
  | cons i l' ih =>
    intro recs overall
    simp only [List.foldl_cons, List.map_cons, List.all_cons]
    cases hoi : ok i with
    | true =>
      have hstep : CLI.repeatStep rc (.ok (recs, overall)) true = .ok (recs ++ [true], overall) := rfl
      rw [hstep, ih]
      simp
    | false =>
      have hstep : CLI.repeatStep rc (.ok (recs, overall)) false = .ok (recs ++ [false], false) := by
        unfold CLI.repeatStep
        simp [hrc]
      rw [hstep, ih]
      simp

theorem repeatCommand_gt_one (n : Nat) (h : 1 < n) (ok : Nat → Bool) :
    CLI.repeatCommand n ok
      = .ok ((List.range n).map ok, if (List.range n).all ok then 0 else 1) := by
  have hne : n ≠ 1 := by omega
  unfold CLI.repeatCommand CLI.repeatRun
  rw [repeatRun_foldl n hne ok (List.range n) [] true]
  simp only [List.nil_append, Bool.true_and]
  cases hall : (List.range n).all ok <;> simp [h]

theorem repeatCommand_one_fail (ok : Nat → Bool) (h0 : ok 0 = false) :
    CLI.repeatCommand 1 ok = .error 1 := by
  unfold CLI.repeatCommand CLI.repeatRun
  have hrange : List.range 1 = [0] := rfl
  rw [hrange]
  simp [CLI.repeatStep, h0]

theorem range_all_false_iff (n : Nat) (ok : Nat → Bool) :
    ((List.range n).all ok = false) ↔ ∃ i, i < n ∧ ok i = false := by
  constructor
  · intro hall
    by_contra hno
    push_neg at hno
    have hT : (List.range n).all ok = true := by
      rw [List.all_eq_true]
      intro i hi
      have hne := hno i (List.mem_range.mp hi)
      cases hoi : ok i with
      | false => exact absurd hoi hne
      | true => rfl
    rw [hT] at hall
    cases hall
  · rintro ⟨i, hi, hoi⟩
    cases hall : (List.range n).all ok with
    | false => rfl
    | true =>
      have := List.all_eq_true.mp hall i (List.mem_range.mpr hi)
      rw [hoi] at this
      cases this

/-- The bulk-upload loop appends one record per file and counts
successes and failures. -/
theorem upload_bulk_foldl (ok : PyStr → Bool) (files : List PyStr) :
    ∀ (recs : List (PyStr × Bool)) (s f : Nat),
      files.foldl
        (fun acc f =>
          if ok f then (acc.1 ++ [(f, true)], acc.2.1 + 1, acc.2.2)
          else (acc.1 ++ [(f, false)], acc.2.1, acc.2.2 + 1))
        (recs, s, f)
        = (recs ++ files.map (fun g => (g, ok g)),
           s + (files.filter ok).length,
           f + (files.filter (fun g => !(ok g))).length) := by
  induction files with
  | nil => intro recs s f; simp
  | cons g files' ih =>
    intro recs s f
    simp only [List.foldl_cons, List.map_cons, List.filter_cons]
    cases hg : ok g with
    | true =>
      simp only [hg, if_true, Bool.not_true, if_false, ih]
      refine congrArg₂ Prod.mk ?_ (congrArg₂ Prod.mk ?_ ?_) <;> simp <;> omega
    | false =>
      simp only [hg, if_false, Bool.not_false, if_true, ih]
      refine congrArg₂ Prod.mk ?_ (congrArg₂ Prod.mk ?_ ?_) <;> simp <;> omega

theorem length_filter_add_length_filter_not {α : Type} (p : α → Bool) (l : List α) :
    (l.filter p).length + (l.filter (fun x => !(p x))).length = l.length := by
  induction l with
  | nil => rfl
  | cons a l' ih =>
    cases ha : p a <;> simp [List.filter_cons, ha] <;> omega

/-! ### The claims -/

/-- Claim C1, code bug: the download docstring says a 404 raises
`FileNotFoundErrorOnServer` and the comment above the except clauses
says that error propagates from `_make_request`, but the final
`except Exception` catch-all catches it — it is a `PermastoreItError`
subclass, not an `IOError` — and re-raises the generic SDK base error,
so a 404 download never surfaces the resource-not-found kind for any
hash. -/
theorem download_404_wrapped_as_generic_error :
    SDK.download "abc".toList "dl".toList none true true ⟨404, some ⟨[]⟩, []⟩
      = .error (.permastoreItError
          ("Unexpected error during download/save: ".toList
            ++ errorStr (.fileNotFoundOnServer "abc".toList))) ∧
    SDK.download "abc".toList "dl".toList none true true ⟨404, some ⟨[]⟩, []⟩
      ≠ .error (.fileNotFoundOnServer "abc".toList) := by
  refine ⟨rfl, fun h => ?_⟩
  have h2 : Except.error (α := PyStr) (SdkError.permastoreItError
      ("Unexpected error during download/save: ".toList
        ++ errorStr (.fileNotFoundOnServer "abc".toList)))
      = Except.error (SdkError.fileNotFoundOnServer "abc".toList) := h
  injection h2 with h3
  exact SdkError.noConfusion h3

/-- Claim C2, code bug: the source tests `"zkp" in endpoint.lower()`, but
the proof endpoint spells the capability `zk-proof`, in which `zkp` never
occurs as a substring, so a 501 answer to `get_zk_proof` is classified as
a generic `APIError` and never as `ZKPDisabledError`. -/
theorem get_zk_proof_501_generic_api_error :
    SDK.get_zk_proof "abc".toList ⟨501, none, "ZKP disabled".toList⟩
      = .error (.apiError 501 "ZKP disabled".toList) ∧
    SDK.get_zk_proof "abc".toList ⟨501, none, "ZKP disabled".toList⟩
      ≠ .error .zkpDisabled := by
  refine ⟨rfl, fun h => ?_⟩
  have h2 : Except.error (α := JsonObj) (SdkError.apiError 501 "ZKP disabled".toList)
      = Except.error SdkError.zkpDisabled := h
  injection h2 with h3
  exact SdkError.noConfusion h3

/-- Claim C3, code bug: when `mimetypes.guess_type` resolves no type, the
source assigns `application/octet-stream` and then executes
`print(..., file=sys.stderr)`; the module never imports `sys`, so the
upload raises `NameError` instead of warning and proceeding, and no
request is issued even when the server would accept the file. -/
theorem upload_unresolved_mime_name_error :
    SDK.uploadPrepare 60 true "data.weird".toList none
      = .error (.nameError "sys".toList) ∧
    SDK.upload 60 true "data.weird".toList none ⟨201, some ⟨[]⟩, []⟩
      = .error (.nameError "sys".toList) :=
  ⟨rfl, rfl⟩

/-- Claim C4: a 404 on an endpoint that is a resource prefix
(`download`, `file-info`, `zk-proof`) followed by exactly one slash-free
segment yields `FileNotFoundErrorOnServer` carrying the segment; a 404
on any other endpoint shape yields a generic `APIError`. -/
theorem make_request_404_classification (endpoint : PyStr) (resp : HttpResponse)
    (h404 : resp.status = 404) :
    (∀ p seg, (p = "download".toList ∨ p = "file-info".toList ∨ p = "zk-proof".toList) →
      '/' ∉ seg → pyLStrip '/' endpoint = p ++ '/' :: seg →
      makeRequest endpoint resp = .error (.fileNotFoundOnServer seg)) ∧
    ((¬ ∃ p seg, (p = "download".toList ∨ p = "file-info".toList ∨ p = "zk-proof".toList)
        ∧ '/' ∉ seg ∧ pyLStrip '/' endpoint = p ++ '/' :: seg) →
      makeRequest endpoint resp
        = .error (.apiError 404 (pyOrElse (extractDetail resp) "Resource not found".toList))) :=
  ⟨fun p seg hp hseg hdec => makeRequest_404_resource endpoint resp h404 p seg hp hseg hdec,
   fun hno => makeRequest_404_generic endpoint resp h404 hno⟩

/-- Witness for C4 at two concrete 404 responses: a resource endpoint
and a non-resource endpoint. -/
theorem make_request_404_classification_witness :
    makeRequest "/file-info/h1".toList ⟨404, some ⟨[]⟩, []⟩
      = .error (.fileNotFoundOnServer "h1".toList) ∧
    makeRequest "/status".toList ⟨404, some ⟨[]⟩, []⟩
      = .error (.apiError 404 "Resource not found".toList) := by
  constructor
  · exact (make_request_404_classification "/file-info/h1".toList ⟨404, some ⟨[]⟩, []⟩ rfl).1
      "file-info".toList "h1".toList (Or.inr (Or.inl rfl)) (by decide) (by decide)
  · have hno : ¬ ∃ p seg,
        (p = "download".toList ∨ p = "file-info".toList ∨ p = "zk-proof".toList)
        ∧ '/' ∉ seg ∧ pyLStrip '/' "/status".toList = p ++ '/' :: seg := by
      rintro ⟨p, seg, _, _, hdec⟩
      have hmem : '/' ∈ pyLStrip '/' "/status".toList := by
        rw [hdec]
        exact List.mem_append_right p (List.mem_cons_self '/' seg)
      rw [show pyLStrip '/' "/status".toList = "status".toList from rfl] at hmem
      exact absurd hmem (by decide)
    exact (make_request_404_classification "/status".toList ⟨404, some ⟨[]⟩, []⟩ rfl).2 hno

/-- Claim C5: for the repeatable upload and download commands, a failure
with repeat count 1 terminates the process immediately with exit code 1,
while with a repeat count above 1 all attempts run, one record is
produced per attempt, and the final exit code is nonzero exactly when at
least one attempt failed. -/
theorem repeat_commands_failure_policy (n : Nat) (ok : Nat → Bool) :
    (n = 1 → ok 0 = false → CLI.upload n ok = .error 1 ∧ CLI.download n ok = .error 1) ∧
    (1 < n →
      CLI.upload n ok
        = .ok ((List.range n).map ok, if (List.range n).all ok then 0 else 1) ∧
      CLI.download n ok
        = .ok ((List.range n).map ok, if (List.range n).all ok then 0 else 1) ∧
      ((List.range n).map ok).length = n ∧
      (((List.range n).all ok = false) ↔ ∃ i, i < n ∧ ok i = false)) := by
  constructor
  · rintro rfl h0
    exact ⟨repeatCommand_one_fail ok h0, repeatCommand_one_fail ok h0⟩
  · intro h
    exact ⟨repeatCommand_gt_one n h ok, repeatCommand_gt_one n h ok, by simp,
      range_all_false_iff n ok⟩

/-- Witness for C5: a single failing attempt with repeat 1 exits
immediately, and repeat 3 with a failure on attempt 2 runs all three
attempts, records each, and exits 1. -/
theorem repeat_commands_failure_policy_witness :
    (CLI.upload 1 (fun _ => false) = .error 1 ∧ CLI.download 1 (fun _ => false) = .error 1) ∧
    CLI.upload 3 (fun i => i != 1) = .ok ([true, false, true], 1) := by
  constructor
  · exact (repeat_commands_failure_policy 1 (fun _ => false)).1 rfl rfl
  · exact (((repeat_commands_failure_policy 3 (fun i => i != 1)).2 (by decide)).1).trans rfl

/-- Claim C6: a 200 health response whose body's status field is not
"healthy" is a successful `get_health` result carrying the degraded
body; the health command maps it to exit code 2, while a failing health
call exits with code 1 instead. -/
theorem health_degraded_exit_two (resp respFail : HttpResponse) (b : JsonObj) (s : PyStr)
    (e : SdkError) (h200 : resp.status = 200) (hbody : resp.jsonBody = some b)
    (hs : JsonObj.get b "status".toList = some s) (hdeg : s ≠ "healthy".toList)
    (hfail : SDK.get_health respFail = .error e) :
    SDK.get_health resp = .ok b ∧ CLI.health resp = 2 ∧ CLI.health respFail = 1 := by
  have hok : SDK.get_health resp = .ok b := by
    unfold SDK.get_health SDK.requestJson
    simp only [makeRequest_of_ok "/health".toList resp (by rw [h200]; rfl)]
    unfold respJson
    simp only [hbody]
  refine ⟨hok, ?_, ?_⟩
  · unfold CLI.health
    simp only [hok]
    rw [hs, if_neg (by simpa using hdeg)]
  · unfold CLI.health
    simp only [hfail]

/-- Witness for C6 at a concrete degraded 200 response and a concrete
failing 500 response. -/
theorem health_degraded_exit_two_witness :
    SDK.get_health ⟨200, some ⟨[("status".toList, "degraded".toList)]⟩, []⟩
      = .ok ⟨[("status".toList, "degraded".toList)]⟩ ∧
    CLI.health ⟨200, some ⟨[("status".toList, "degraded".toList)]⟩, []⟩ = 2 ∧
    CLI.health ⟨500, none, "boom".toList⟩ = 1 :=
  health_degraded_exit_two ⟨200, some ⟨[("status".toList, "degraded".toList)]⟩, []⟩
    ⟨500, none, "boom".toList⟩ ⟨[("status".toList, "degraded".toList)]⟩
    "degraded".toList (.apiError 500 "boom".toList) rfl rfl rfl (by decide) rfl

/-- Claim C7: bulk upload attempts every matching file, never aborting
the batch on a per-file failure, and reports success = N - K and
failed = K where K is the number of failing attempts. -/
theorem upload_bulk_summary (files : List PyStr) (ok : PyStr → Bool) (hne : files ≠ []) :
    CLI.upload_bulk files ok
      = some (files.map (fun f => (f, ok f)), (files.filter ok).length,
              (files.filter (fun f => !(ok f))).length) ∧
    (files.map (fun f => (f, ok f))).length = files.length ∧
    (files.filter ok).length
      = files.length - (files.filter (fun f => !(ok f))).length := by
  have hlen := length_filter_add_length_filter_not ok files
  refine ⟨?_, by simp, by omega⟩
  unfold CLI.upload_bulk
  rw [if_neg (by simpa using hne)]
  rw [upload_bulk_foldl ok files [] 0 0]
  simp

/-- Witness for C7 over three files with one simulated failure. -/
theorem upload_bulk_summary_witness :
    CLI.upload_bulk ["a".toList, "b".toList, "c".toList] (fun f => f != "b".toList)
      = some ([("a".toList, true), ("b".toList, false), ("c".toList, true)], 2, 1) :=
  ((upload_bulk_summary ["a".toList, "b".toList, "c".toList] (fun f => f != "b".toList)
      (by simp)).1).trans rfl

/-- Claim C8: the upload request's effective timeout equals
max(2 * t, 120) for configured default t, hence is at least double the
default and at least 120. -/
theorem upload_timeout_policy (t : Int) (file_name ct : PyStr) :
    ∃ req, SDK.uploadPrepare t true file_name (some ct) = .ok req ∧
      req.timeout = max (2 * t) 120 ∧ 2 * t ≤ req.timeout ∧ (120 : Int) ≤ req.timeout := by
  refine ⟨⟨file_name, ct, max (t * 2) 120⟩, rfl, ?_, ?_, ?_⟩
  · show max (t * 2) 120 = max (2 * t) 120
    rw [Int.mul_comm]
  · show 2 * t ≤ max (t * 2) 120
    rw [Int.mul_comm t 2]
    exact le_max_left _ _
  · show (120 : Int) ≤ max (t * 2) 120
    exact le_max_right _ _

/-- Claim C9: a limit below 1 makes listFiles and search fail with
ValueError for every possible response, so before any network outcome
matters; a positive limit (or no limit for listFiles) never produces
that failure. -/
theorem limit_validation (l : Int) (query : PyStr) :
    (l < 1 → ∀ resp, SDK.list_files (some l) resp = .error (.valueError SDK.limitMsg) ∧
        SDK.search query l resp = .error (.valueError SDK.limitMsg)) ∧
    (1 ≤ l → ∀ resp m, SDK.list_files (some l) resp ≠ .error (.valueError m) ∧
        SDK.search query l resp ≠ .error (.valueError m) ∧
        SDK.list_files none resp ≠ .error (.valueError m)) := by
  constructor
  · intro hl resp
    constructor
    · show (if l < 1 then Except.error (SdkError.valueError SDK.limitMsg)
          else SDK.requestJson "/files".toList resp)
          = Except.error (SdkError.valueError SDK.limitMsg)
      rw [if_pos hl]
    · unfold SDK.search
      rw [if_pos hl]
  · intro hl resp m
    have hnl : ¬ l < 1 := by omega
    refine ⟨?_, ?_, ?_⟩
    · show (if l < 1 then Except.error (SdkError.valueError SDK.limitMsg)
          else SDK.requestJson "/files".toList resp)
          ≠ Except.error (SdkError.valueError m)
      rw [if_neg hnl]
      exact requestJson_ne_valueError "/files".toList resp m
    · unfold SDK.search
      rw [if_neg hnl]
      exact requestJson_ne_valueError "/search".toList resp m
    · exact requestJson_ne_valueError "/files".toList resp m

/-- Witness for C9 at limits 0, -1 and 5. -/
theorem limit_validation_witness :
    SDK.list_files (some 0) ⟨200, some ⟨[]⟩, []⟩ = .error (.valueError SDK.limitMsg) ∧
    SDK.search "q".toList (-1) ⟨200, some ⟨[]⟩, []⟩ = .error (.valueError SDK.limitMsg) ∧
    SDK.list_files (some 5) ⟨200, some ⟨[]⟩, []⟩ ≠ .error (.valueError SDK.limitMsg) := by
  refine ⟨?_, ?_, ?_⟩
  · exact ((limit_validation 0 "q".toList).1 (by decide) ⟨200, some ⟨[]⟩, []⟩).1
  · exact ((limit_validation (-1) "q".toList).1 (by decide) ⟨200, some ⟨[]⟩, []⟩).2
  · exact ((limit_validation 5 "q".toList).2 (by decide) ⟨200, some ⟨[]⟩, []⟩ SDK.limitMsg).1

/-- Claim C10: the outgoing URL is the base with trailing slashes
stripped, a single slash, and the endpoint with leading slashes
stripped; bases differing only by trailing slashes and endpoints
differing only by leading slashes give identical URLs. -/
theorem request_url_slash_normalization (b e : PyStr) (k m : Nat) :
    requestUrl (b ++ List.replicate k '/') (List.replicate m '/' ++ e) = requestUrl b e ∧
    requestUrl b e = pyRStrip '/' b ++ '/' :: pyLStrip '/' e := by
  refine ⟨?_, rfl⟩
  unfold requestUrl
  rw [pyRStrip_append_replicate, pyLStrip_replicate_append]

end PermastoreIt
